import Mathlib

/-!
Verification development for the cupbearer repository.

The embedding below translates the relevant Python source into Lean:
  * `src/abstractions/train_abstraction.py` — the abstraction-training
    pipeline (`apply_model`, `update_model`, `train_epoch`,
    `train_and_evaluate`), with JAX 2-D arrays modelled as lists of rows
    of reals and the JAX elementwise/reduction primitives modelled
    pointwise;
  * `src/cupbearer/detectors/config.py` (`StoredDetector.build`) and
    `src/cupbearer/models/__init__.py` (`StoredModel.build_model`) — the
    stored-object loader, with the file system modelled as a partial map
    from paths to on-disk configs/weights and recursion made explicit by
    a fuel parameter;
  * `src/cupbearer/data/backdoor_data.py` (`BackdoorData`) — the
    composite backdoor dataset config.

Python assertion failures and raised exceptions are modelled with
`Except`; JAX autodifferentiation is an opaque parameter `autodiff`
(the gradients it yields are never inspected, only the function that is
differentiated).
-/

namespace Cupbearer

namespace TrainAbstraction

/-- A JAX 2-D array (shape `(rows, cols)`) modelled as a list of rows. -/
abbrev Mat := List (List ℝ)

/-- The `m.shape` of a 2-D array: row count and length of the first row. -/
def matShape (m : Mat) : ℕ × ℕ := (m.length, (m.headD []).length)

/-- Total number of entries of an array (denominator of `jnp.mean`). -/
def matSize (m : Mat) : ℕ := (m.map List.length).sum

/-- Elementwise `exp` (`logits.exp()`). -/
noncomputable def matExp (m : Mat) : Mat := m.map (List.map Real.exp)

/-- Elementwise subtraction (`x - y`). -/
def matSub (x y : Mat) : Mat := List.zipWith (List.zipWith (fun a b => a - b)) x y

/-- Elementwise (Hadamard) product (`x * y`). -/
def matHad (x y : Mat) : Mat := List.zipWith (List.zipWith (fun a b => a * b)) x y

/-- Elementwise square (`x.square()`). -/
def matSquare (m : Mat) : Mat := m.map (List.map (fun x => x ^ 2))

/-- Per-row sums, `.sum(axis=-1)`. -/
def sumLastAxis (m : Mat) : List ℝ := m.map List.sum

/-- The `.mean()` of a 1-D array. -/
noncomputable def vecMean (v : List ℝ) : ℝ := v.sum / (v.length : ℝ)

/-- The `.mean()` of a 2-D array: sum of all entries over the entry count. -/
noncomputable def matMeanAll (m : Mat) : ℝ := (sumLastAxis m).sum / (matSize m : ℝ)

/-- One consistency term: `(abstraction - predicted_abstraction).square().mean()`. -/
noncomputable def sqErrMean (a p : Mat) : ℝ := matMeanAll (matSquare (matSub a p))

/-- The output loss of `loss_fn`:
`(logits.exp() * (logits - predicted_logits)).sum(axis=-1).mean()`. -/
noncomputable def output_loss_def (logits predicted_logits : Mat) : ℝ :=
  vecMean (sumLastAxis (matHad (matExp logits) (matSub logits predicted_logits)))

/-- The consistency loss of `loss_fn`: starting from `0`, accumulate
`(abstraction - predicted_abstraction).square().mean()` over
`zip(abstractions[1:], predicted_abstractions)`, then divide by
`len(predicted_abstractions)`. -/
noncomputable def consistency_loss_def (abstractions predicted_abstractions : List Mat) : ℝ :=
  ((List.zipWith sqErrMean (abstractions.drop 1) predicted_abstractions).foldl
      (fun acc t => acc + t) 0)
    / ((predicted_abstractions.length : ℝ))

/-- The three loss values computed inside `loss_fn`
(`(loss, (output_loss, consistency_loss))`); the total is the plain sum
of the two terms. -/
noncomputable def lossTerms (abstractions predicted_abstractions : List Mat)
    (logits predicted_logits : Mat) : ℝ × ℝ × ℝ :=
  (output_loss_def logits predicted_logits
     + consistency_loss_def abstractions predicted_abstractions,
   output_loss_def logits predicted_logits,
   consistency_loss_def abstractions predicted_abstractions)

/-- Failure modes of the Python `assert`s (and the `abstractions[0]`
indexing) inside `loss_fn`. -/
inductive AssertFail where
  | lenMismatch
  | indexOutOfRange
  | abstractionShape
  | logitsShape
deriving DecidableEq, Repr

/-- The body of `loss_fn` in `apply_model`, with the assertions made
explicit: given the abstraction model output at `params`, check
`len(abstractions) == len(predicted_abstractions)`, read
`b, d = abstractions[0].shape` (an exception on an empty list), check
`predicted_abstractions[0].shape == (b, d)` and
`logits.shape == (b, 10) == predicted_logits.shape`, then return the
loss triple. -/
noncomputable def lossFnChecked {P : Type}
    (apply_fn : P → List Mat → List Mat × List Mat × Mat)
    (params : P) (logits : Mat) (activations : List Mat) :
    Except AssertFail (ℝ × ℝ × ℝ) :=
  if (apply_fn params activations).1.length = (apply_fn params activations).2.1.length then
    if (apply_fn params activations).1.length = 0 then .error .indexOutOfRange
    else
      if matShape ((apply_fn params activations).2.1.headD [])
          = matShape ((apply_fn params activations).1.headD []) then
        if matShape logits = (((apply_fn params activations).1.headD []).length, 10)
            ∧ matShape (apply_fn params activations).2.2
                = (((apply_fn params activations).1.headD []).length, 10) then
          .ok (lossTerms (apply_fn params activations).1 (apply_fn params activations).2.1
                logits (apply_fn params activations).2.2)
        else .error .logitsShape
      else .error .abstractionShape
  else .error .lenMismatch

/-- The scalar total loss as a function of the parameters: the function
that `jax.value_and_grad` differentiates in `apply_model`. -/
noncomputable def totalLossAt {P : Type}
    (apply_fn : P → List Mat → List Mat × List Mat × Mat)
    (logits : Mat) (activations : List Mat) (p : P) : ℝ :=
  (lossTerms (apply_fn p activations).1 (apply_fn p activations).2.1
    logits (apply_fn p activations).2.2).1

/-- Flax `TrainState`: parameters, step counter, the abstraction model's
`apply_fn`, and the optax transform (`tx.update` and
`optax.apply_updates`) together with its optimizer state. -/
structure TrainState (P G O : Type) where
  params : P
  step : ℕ
  apply_fn : P → List Mat → List Mat × List Mat × Mat
  txUpdate : G → O → P → G × O
  applyUpdates : P → G → P
  optState : O

/-- A batch `(images, labels, backdoored)`; only `images` is consumed by
`apply_model` (through `forward_fn`). -/
structure Batch (I : Type) where
  images : I
  labels : List ℕ
  backdoored : List Bool

/-- The metrics dict returned by `apply_model`, with keys `loss`,
`output_loss` and `consistency_loss` in that insertion order. -/
structure Metrics where
  loss : ℝ
  output_loss : ℝ
  consistency_loss : ℝ

/-- The per-batch step `apply_model(state, batch, forward_fn)`: run the frozen reference
model forward, evaluate the checked loss, and on success return the
gradients (produced by the opaque `autodiff`, applied to the very
function whose value is reported) together with the metrics dict.
An assertion failure inside `loss_fn` aborts before any gradient is
produced. -/
noncomputable def apply_model {P G O I : Type} (autodiff : (P → ℝ) → P → G)
    (state : TrainState P G O) (batch : Batch I)
    (forward_fn : I → Mat × List Mat) : Except AssertFail (G × Metrics) :=
  match lossFnChecked state.apply_fn state.params (forward_fn batch.images).1
      (forward_fn batch.images).2 with
  | .error e => .error e
  | .ok t =>
      .ok (autodiff (totalLossAt state.apply_fn (forward_fn batch.images).1
             (forward_fn batch.images).2) state.params,
           { loss := t.1, output_loss := t.2.1, consistency_loss := t.2.2 })

/-- Flax `TrainState.apply_gradients`: one optax update, new parameters,
and an incremented step counter, returned as a new state. -/
def applyGradients {P G O : Type} (s : TrainState P G O) (grads : G) :
    TrainState P G O :=
  let u := s.txUpdate grads s.optState s.params
  { s with params := s.applyUpdates s.params u.1, optState := u.2, step := s.step + 1 }

/-- The update `update_model(state, grads) = state.apply_gradients(grads=grads)`. -/
def update_model {P G O : Type} (s : TrainState P G O) (grads : G) :
    TrainState P G O :=
  applyGradients s grads

/-- Errors that can abort `train_and_evaluate`: an assertion failure
from `apply_model`, or a Python `KeyError` from a metrics-dict lookup. -/
inductive RunFail where
  | assertion (e : AssertFail)
  | keyError (k : String)
deriving DecidableEq

/-- The metrics dict of one `apply_model` call as an association list,
in the insertion order of the source dict literal. -/
def metricsDict (m : Metrics) : List (String × ℝ) :=
  [("loss", m.loss), ("output_loss", m.output_loss),
   ("consistency_loss", m.consistency_loss)]

/-- The body of `train_epoch`'s loop: per batch, `apply_model` then
`update_model`, appending each metric value to the `epoch_metrics`
lists (keyed `loss`, `output_loss`, `consistency_loss`, the dict's
insertion order).  Returns the final state and the three value lists. -/
noncomputable def trainEpochLoop {P G O I : Type} (autodiff : (P → ℝ) → P → G)
    (forward_fn : I → Mat × List Mat) :
    TrainState P G O → List (Batch I) →
    Except AssertFail (TrainState P G O × List ℝ × List ℝ × List ℝ)
  | s, [] => .ok (s, [], [], [])
  | s, b :: rest =>
    match apply_model autodiff s b forward_fn with
    | .error e => .error e
    | .ok gm =>
      match trainEpochLoop autodiff forward_fn (update_model s gm.1) rest with
      | .error e => .error e
      | .ok r =>
          .ok (r.1, gm.2.loss :: r.2.1, gm.2.output_loss :: r.2.2.1,
               gm.2.consistency_loss :: r.2.2.2)

/-- Per-key means of the epoch metrics, as in the source dict comprehension:
an empty dict when no batch was processed (the `defaultdict` never got
a key), otherwise the three per-key means. -/
noncomputable def epochMeans (r : List ℝ × List ℝ × List ℝ) : List (String × ℝ) :=
  if r.1 = [] then []
  else
    [("loss", vecMean r.1), ("output_loss", vecMean r.2.1),
     ("consistency_loss", vecMean r.2.2)]

/-- One epoch, `train_epoch(state, train_loader, ...)`: iterate all batches once,
then return the final state and the per-metric means. -/
noncomputable def train_epoch {P G O I : Type} (autodiff : (P → ℝ) → P → G)
    (forward_fn : I → Mat × List Mat) (s : TrainState P G O)
    (batches : List (Batch I)) :
    Except AssertFail (TrainState P G O × List (String × ℝ)) :=
  match trainEpochLoop autodiff forward_fn s batches with
  | .error e => .error e
  | .ok r => .ok (r.1, epochMeans r.2)

/-- A metrics-dict access `d[k]`: `KeyError` when absent. -/
def lookupKey (d : List (String × ℝ)) (k : String) : Except RunFail ℝ :=
  match d.lookup k with
  | some v => .ok v
  | none => .error (.keyError k)

/-- The tuple built for the per-epoch log line, in Python evaluation
order: `train_metrics["loss"]`, `train_metrics["accuracy"]`,
`test_metrics["loss"]`, `test_metrics["accuracy"]`. -/
def logLineTuple (epoch : ℕ) (trainMetrics testMetrics : List (String × ℝ)) :
    Except RunFail (ℕ × ℝ × ℝ × ℝ × ℝ) :=
  match lookupKey trainMetrics "loss" with
  | .error e => .error e
  | .ok tl =>
    match lookupKey trainMetrics "accuracy" with
    | .error e => .error e
    | .ok ta =>
      match lookupKey testMetrics "loss" with
      | .error e => .error e
      | .ok sl =>
        match lookupKey testMetrics "accuracy" with
        | .error e => .error e
        | .ok sa => .ok (epoch, tl, ta, sl, sa)

/-- The epoch loop of `train_and_evaluate`: for each of the remaining
epochs, run `train_epoch`, evaluate one held-out batch with
`apply_model` (the source calls `apply_model(state, test_batch)`,
omitting the mandatory `forward_fn` argument; it is supplied here so
that the call is even well-typed), build the log-line tuple, and
recurse on the new state. -/
noncomputable def trainAndEvaluateLoop {P G O I : Type}
    (autodiff : (P → ℝ) → P → G) (forward_fn : I → Mat × List Mat)
    (trainBatches : List (Batch I)) (testBatch : Batch I) :
    ℕ → TrainState P G O → Except RunFail (TrainState P G O)
  | 0, s => .ok s
  | n + 1, s =>
    match train_epoch autodiff forward_fn s trainBatches with
    | .error e => .error (.assertion e)
    | .ok r =>
      match apply_model autodiff r.1 testBatch forward_fn with
      | .error e => .error (.assertion e)
      | .ok tm =>
        match logLineTuple (n + 1) r.2 (metricsDict tm.2) with
        | .error e => .error e
        | .ok _ => trainAndEvaluateLoop autodiff forward_fn trainBatches testBatch n r.1

/-- The driver `train_and_evaluate(config)`, abstracted over the data loaders and
the initial state: run `config.num_epochs` epochs of
train-then-evaluate-then-log. -/
noncomputable def train_and_evaluate {P G O I : Type}
    (autodiff : (P → ℝ) → P → G) (forward_fn : I → Mat × List Mat)
    (trainBatches : List (Batch I)) (testBatch : Batch I)
    (num_epochs : ℕ) (initState : TrainState P G O) :
    Except RunFail (TrainState P G O) :=
  trainAndEvaluateLoop autodiff forward_fn trainBatches testBatch num_epochs initState

/-- The output-loss formula as the spec words it: per example, the sum
over classes of `exp(logits) * (logits - predicted_logits)`, averaged
over the batch. -/
noncomputable def outputLossSpecFormula (logits predicted_logits : Mat) : ℝ :=
  (List.zipWith
      (fun lr pr => (List.zipWith (fun a b => Real.exp a * (a - b)) lr pr).sum)
      logits predicted_logits).sum
    / ((logits.length : ℝ))

/-- The consistency loss as the claim words it: the per-layer-pair mean
squared errors, averaged across the `n - 1` layer pairs (the first
reference layer is skipped). -/
noncomputable def consistencyClaimed (abstractions predicted_abstractions : List Mat) : ℝ :=
  (List.zipWith sqErrMean (abstractions.drop 1) predicted_abstractions).sum
    / (((abstractions.length - 1 : ℕ) : ℝ))

/-- A trivial autodiff stand-in for concrete runs with `Unit` gradients. -/
def adUnit : (Unit → ℝ) → Unit → Unit := fun _ _ => ()

/-- A concrete `TrainState` over `Unit` parameters whose abstraction
model always emits the given `(abstractions, predicted_abstractions,
predicted_logits)` triple. -/
noncomputable def mkState (a p : List Mat) (q : Mat) : TrainState Unit Unit Unit :=
  { params := (), step := 0, apply_fn := fun _ _ => (a, p, q),
    txUpdate := fun _ o _ => ((), o), applyUpdates := fun pr _ => pr, optState := () }

/-- A trivial batch. -/
def batchU : Batch Unit := ⟨(), [], []⟩

/-- A reference forward function with fixed logits and no activations. -/
noncomputable def fwdConst (logits : Mat) : Unit → Mat × List Mat :=
  fun _ => (logits, [])

/-- Three 1-by-1 zero reference layers. -/
noncomputable def absZ : List Mat := [[[0]], [[0]], [[0]]]

/-- Three 1-by-1 zero predicted layers. -/
noncomputable def predZ : List Mat := [[[0]], [[0]], [[0]]]

/-- Reference layers `0, 1, 2` (each 1-by-1). -/
noncomputable def abs1 : List Mat := [[[0]], [[1]], [[2]]]

/-- A 1-by-10 all-zero logits array. -/
noncomputable def logitsZ : Mat := [[0, 0, 0, 0, 0, 0, 0, 0, 0, 0]]

/-- A 1-by-10 all-one logits array. -/
noncomputable def logitsOne : Mat := [[1, 1, 1, 1, 1, 1, 1, 1, 1, 1]]

end TrainAbstraction

namespace Stored

/-- A detector config as resolved from `path/config.yaml`: either a
`StoredDetector` (just a path) or a concrete detector variant
(abstracted to an identifier). -/
inductive DetectorCfg where
  | stored (path : String)
  | concrete (id : ℕ)
deriving DecidableEq, Repr

/-- A built `AnomalyDetector`: its originating concrete variant and the
weights loaded into it (`none` = freshly initialized parameters). -/
structure Detector where
  cfgId : ℕ
  weights : Option ℕ
deriving DecidableEq, Repr

/-- The part of the file system the stored-detector loader reads:
`configs path` is the detector sub-config inside `path/config.yaml`,
`weights path` is the contents of the `path/detector` weights file. -/
structure DetectorDisk where
  configs : String → Option DetectorCfg
  weights : String → Option ℕ

/-- Failures of a stored-object build: the self-reference
`RuntimeError`, a missing/unreadable `config.yaml`, or exhaustion of
the recursion allowance (the Python code has no such bound; a result of
`fuelOut` at fuel `n` means the build is still recursing at call depth
`n`). -/
inductive BuildFail where
  | selfReference
  | configNotFound
  | fuelOut
deriving DecidableEq, Repr

/-- A warning emitted through `logger.warning`. -/
inductive WarningMsg where
  | missingWeights (path : String)
deriving DecidableEq, Repr

/-- The build step `DetectorConfig.build`, with `StoredDetector.build` inlined for the
stored variant: load the config at the path, raise the self-reference
`RuntimeError` if it is a `StoredDetector` pointing at the same path,
build it, then try to load weights from `path/detector`, turning a
`FileNotFoundError` into a single warning.  Builds of concrete variants
consume no fuel; only the stored-of-stored recursion does. -/
def buildDetector (disk : DetectorDisk) : ℕ → DetectorCfg →
    Except BuildFail (Detector × List WarningMsg)
  | _, .concrete i => .ok (⟨i, none⟩, [])
  | 0, .stored _ => .error .fuelOut
  | fuel + 1, .stored path =>
    match disk.configs path with
    | none => .error .configNotFound
    | some cfg =>
      if cfg = .stored path then .error .selfReference
      else
        match buildDetector disk fuel cfg with
        | .error e => .error e
        | .ok dw =>
          match disk.weights path with
          | some w => .ok ({ dw.1 with weights := some w }, dw.2)
          | none => .ok (dw.1, dw.2 ++ [.missingWeights path])

/-- A model config as resolved from `path/config.yaml`: `StoredModel`
(`from_run`, just a path) or one of the concrete variants `MLP`/`CNN`. -/
inductive ModelCfg where
  | stored (path : String)
  | mlp (output_dim : ℕ) (hidden_dims : List ℕ)
  | cnn (output_dim : ℕ) (channels : List ℕ) (dense_dims : List ℕ)
deriving DecidableEq, Repr

/-- A built model. -/
inductive BuiltModel where
  | mlp (output_dim : ℕ) (hidden_dims : List ℕ)
  | cnn (output_dim : ℕ) (channels : List ℕ) (dense_dims : List ℕ)
deriving DecidableEq, Repr

/-- The model sub-configs stored in `path/config.yaml` files. -/
structure ModelDisk where
  configs : String → Option ModelCfg

/-- The build step `ModelConfig.build_model`, with `StoredModel.build_model` inlined
for the stored variant: load the config at the path and build it.
Unlike `StoredDetector.build`, the source has no self-reference check
here, so a self-referential config recurses; the fuel parameter makes
that visible as `fuelOut` at every allowance. -/
def build_model (disk : ModelDisk) : ℕ → ModelCfg → Except BuildFail BuiltModel
  | _, .mlp o h => .ok (.mlp o h)
  | _, .cnn o c d => .ok (.cnn o c d)
  | 0, .stored _ => .error .fuelOut
  | fuel + 1, .stored path =>
    match disk.configs path with
    | none => .error .configNotFound
    | some cfg => build_model disk fuel cfg

/-- A disk whose `config.yaml` at path `"m"` holds a stored-model config
pointing back at `"m"` itself. -/
def selfModDisk : ModelDisk :=
  ⟨fun p => if p = "m" then some (.stored "m") else none⟩

/-- A disk whose `config.yaml` at path `"d"` holds a stored-detector
config pointing back at `"d"` itself. -/
def selfDetDisk : DetectorDisk :=
  ⟨fun p => if p = "d" then some (.stored "d") else none, fun _ => none⟩

/-- A disk where path `"p"` stores a stored-detector config pointing at
path `"q"`, `"q"` stores a concrete detector config, and neither path
has a weights file. -/
def nestedDetDisk : DetectorDisk :=
  ⟨fun p => if p = "p" then some (.stored "q")
            else if p = "q" then some (.concrete 7) else none,
   fun _ => none⟩

/-- A disk where path `"w"` stores a concrete detector config and has no
weights file. -/
def concreteDetDisk : DetectorDisk :=
  ⟨fun p => if p = "w" then some (.concrete 3) else none, fun _ => none⟩

end Stored

namespace BackdoorCfg

/-- Modelled from the spec: the `DatasetConfig` base class (its file is
not under `src/`) carries a `no_augmentation` flag and a `transforms`
list, and its `get_transforms` returns that list.  `acceptsNoAug`
records whether assigning `no_augmentation` on the wrapped original
config succeeds or raises `AttributeError` (the `try`/`except` in
`BackdoorData.__post_init__`). -/
structure OriginalCfg (T : Type) where
  transforms : List T
  acceptsNoAug : Bool
  no_augmentation : Bool
  num_classes : ℕ
deriving DecidableEq

/-- The `BackdoorData` node: a composite dataset config wrapping an original
dataset config and a backdoor transform, plus the base-class fields
(`transforms`, `no_augmentation`) it inherits from `DatasetConfig`. -/
structure BackdoorData (T : Type) where
  original : OriginalCfg T
  backdoor : T
  transforms : List T
  no_augmentation : Bool
deriving DecidableEq

/-- The assignment `self.original.no_augmentation = v`, with the `AttributeError`
branch leaving the original untouched. -/
def setOriginalNoAug {T : Type} (o : OriginalCfg T) (v : Bool) : OriginalCfg T :=
  if o.acceptsNoAug then { o with no_augmentation := v } else o

/-- The hook `BackdoorData.__post_init__`: when the node's `no_augmentation`
flag is set, propagate it down to the wrapped original config. -/
def postInit {T : Type} (bd : BackdoorData T) : BackdoorData T :=
  if bd.no_augmentation then
    { bd with original := setOriginalNoAug bd.original bd.no_augmentation }
  else bd

/-- The method `BackdoorData.get_transforms`: the original's transforms, then the
inherited `super().get_transforms()` (the node's own `transforms`
field), then the backdoor, appended last and never stored. -/
def get_transforms {T : Type} (bd : BackdoorData T) : List T :=
  bd.original.transforms ++ bd.transforms ++ [bd.backdoor]

/-- The serialized form of a `BackdoorData` node (a nested document of
its field values). -/
def serializeBD {T : Type} (bd : BackdoorData T) :
    (List T × Bool × Bool × ℕ) × T × List T × Bool :=
  ((bd.original.transforms, bd.original.acceptsNoAug, bd.original.no_augmentation,
    bd.original.num_classes), bd.backdoor, bd.transforms, bd.no_augmentation)

/-- Deserializing a stored document back into a `BackdoorData` node
(dataclass construction runs `__post_init__` afterwards; see
`postInit`). -/
def deserializeBD {T : Type} (doc : (List T × Bool × Bool × ℕ) × T × List T × Bool) :
    BackdoorData T :=
  { original :=
      { transforms := doc.1.1, acceptsNoAug := doc.1.2.1,
        no_augmentation := doc.1.2.2.1, num_classes := doc.1.2.2.2 },
    backdoor := doc.2.1, transforms := doc.2.2.1, no_augmentation := doc.2.2.2 }

/-- Reloading a stored config: deserialize, then `__post_init__`. -/
def reloadBD {T : Type} (bd : BackdoorData T) : BackdoorData T :=
  postInit (deserializeBD (serializeBD bd))

end BackdoorCfg

namespace Stored

/-- C3 (counterexample): `StoredModel.build_model` on a self-referential
stored-model config does not fail fast with a self-reference error — at
recursion allowance 20 it is still recursing (`fuelOut`), so the claim
that both stored detectors and stored models fail fast with a
self-reference error at bounded depth is false for stored models. -/
theorem stored_model_self_reference_cex :
    build_model selfModDisk 20 (.stored "m") = .error .fuelOut
    ∧ BuildFail.fuelOut ≠ BuildFail.selfReference :=
  ⟨rfl, by decide⟩

/-- C3 (amended): only the stored-detector loader guards against
self-reference.  `StoredDetector.build` on a path whose on-disk config
is a stored detector at the same path fails with the self-reference
error at every recursion allowance (it never recurses), while
`StoredModel.build_model` performs no such check: on a self-referential
stored-model config it exhausts every recursion allowance without ever
reporting a self-reference. -/
theorem self_reference_guard_detector_only (disk : DetectorDisk) (path : String)
    (hd : disk.configs path = some (.stored path))
    (mdisk : ModelDisk) (mpath : String)
    (hm : mdisk.configs mpath = some (.stored mpath)) :
    (∀ fuel, buildDetector disk (fuel + 1) (.stored path) = .error .selfReference)
    ∧ (∀ fuel, build_model mdisk fuel (.stored mpath) = .error .fuelOut) := by
  constructor
  · intro fuel
    simp [buildDetector, hd]
  · intro fuel
    induction fuel with
    | zero => simp [build_model]
    | succ k ih => simp [build_model, hm, ih]

/-- Witness for `self_reference_guard_detector_only` at the concrete
self-referential disks. -/
theorem self_reference_guard_detector_only_witness :
    (∀ fuel, buildDetector selfDetDisk (fuel + 1) (.stored "d") = .error .selfReference)
    ∧ (∀ fuel, build_model selfModDisk fuel (.stored "m") = .error .fuelOut) :=
  self_reference_guard_detector_only selfDetDisk "d" rfl selfModDisk "m" rfl

/-- C4 (counterexample): a stored detector config at `"p"` whose
weights file is absent but whose on-disk config is itself a stored
detector at `"q"` (also without weights) builds successfully yet emits
two missing-weights warnings, not exactly one. -/
theorem missing_weights_two_warnings_cex :
    buildDetector nestedDetDisk 2 (.stored "p")
      = .ok (⟨7, none⟩, [.missingWeights "q", .missingWeights "p"])
    ∧ [WarningMsg.missingWeights "q", WarningMsg.missingWeights "p"].length ≠ 1 :=
  ⟨rfl, by decide⟩

/-- C4 (amended): building a stored detector config whose on-disk
config is a concrete (non-stored) detector variant and whose weights
file is absent returns the freshly built detector (no loaded weights,
i.e. default parameters) together with exactly one warning, and no
error is propagated. -/
theorem stored_detector_missing_weights_single_warning
    (disk : DetectorDisk) (path : String) (i : ℕ)
    (hc : disk.configs path = some (.concrete i))
    (hw : disk.weights path = none) (fuel : ℕ) :
    buildDetector disk (fuel + 1) (.stored path)
      = .ok (⟨i, none⟩, [.missingWeights path]) := by
  simp [buildDetector, hc, hw]

/-- Witness for `stored_detector_missing_weights_single_warning` at a
concrete one-level disk. -/
theorem stored_detector_missing_weights_single_warning_witness :
    buildDetector concreteDetDisk 1 (.stored "w")
      = .ok (⟨3, none⟩, [.missingWeights "w"]) :=
  stored_detector_missing_weights_single_warning concreteDetDisk "w" 3 rfl rfl 0

end Stored

namespace BackdoorCfg

/-- C9: a `BackdoorData` node constructed with `no_augmentation` set
propagates the flag to the wrapped original config during
`__post_init__` whenever the original accepts the attribute, so
afterwards the two flags agree. -/
theorem no_augmentation_propagates {T : Type} (bd : BackdoorData T)
    (hset : bd.no_augmentation = true)
    (hattr : bd.original.acceptsNoAug = true) :
    (postInit bd).original.no_augmentation = (postInit bd).no_augmentation := by
  simp [postInit, setOriginalNoAug, hset, hattr]

/-- Witness for `no_augmentation_propagates` on a concrete node whose
original starts with the flag off. -/
theorem no_augmentation_propagates_witness :
    (postInit (⟨⟨[1, 2], true, false, 10⟩, 5, [], true⟩ : BackdoorData ℕ)).original.no_augmentation
      = (postInit (⟨⟨[1, 2], true, false, 10⟩, 5, [], true⟩ : BackdoorData ℕ)).no_augmentation :=
  no_augmentation_propagates _ rfl rfl

/-- Post-initialization only touches the original's `no_augmentation` flag:
transforms, the backdoor and the original's transforms are unchanged. -/
theorem postInit_preserves_transforms {T : Type} (bd : BackdoorData T) :
    (postInit bd).original.transforms = bd.original.transforms
    ∧ (postInit bd).transforms = bd.transforms
    ∧ (postInit bd).backdoor = bd.backdoor := by
  unfold postInit setOriginalNoAug
  split
  · split <;> exact ⟨rfl, rfl, rfl⟩
  · exact ⟨rfl, rfl, rfl⟩

/-- Serialize-then-deserialize reproduces the node. -/
theorem reloadBD_eq_postInit {T : Type} (bd : BackdoorData T) :
    reloadBD bd = postInit bd := rfl

/-- C10: `get_transforms` returns the original's transforms, then the
node's own inherited transforms, then the backdoor last; when the
backdoor does not already occur among those transforms it appears
exactly once, and because it is never written into the stored
`transforms` field, it still appears exactly once after the config is
serialized, reloaded and re-normalized. -/
theorem backdoor_applied_once {T : Type} [DecidableEq T] (bd : BackdoorData T)
    (h1 : bd.backdoor ∉ bd.original.transforms)
    (h2 : bd.backdoor ∉ bd.transforms) :
    get_transforms bd = bd.original.transforms ++ bd.transforms ++ [bd.backdoor]
    ∧ (get_transforms bd).getLast? = some bd.backdoor
    ∧ (get_transforms bd).count bd.backdoor = 1
    ∧ (reloadBD bd).transforms = bd.transforms
    ∧ (get_transforms (reloadBD bd)).count bd.backdoor = 1 := by
  obtain ⟨ho, ht, hb⟩ := postInit_preserves_transforms bd
  refine ⟨rfl, ?_, ?_, ?_, ?_⟩
  · simp [get_transforms]
  · simp [get_transforms, List.count_append, List.count_eq_zero_of_not_mem h1,
      List.count_eq_zero_of_not_mem h2]
  · rw [reloadBD_eq_postInit]; exact ht
  · rw [reloadBD_eq_postInit]
    simp [get_transforms, ho, ht, hb, List.count_append,
      List.count_eq_zero_of_not_mem h1, List.count_eq_zero_of_not_mem h2]

/-- Witness for `backdoor_applied_once` on a concrete node. -/
theorem backdoor_applied_once_witness :
    get_transforms (⟨⟨[1, 2], true, false, 10⟩, 9, [3], true⟩ : BackdoorData ℕ)
        = [1, 2] ++ [3] ++ [9]
    ∧ (get_transforms (⟨⟨[1, 2], true, false, 10⟩, 9, [3], true⟩ : BackdoorData ℕ)).getLast?
        = some 9
    ∧ (get_transforms (⟨⟨[1, 2], true, false, 10⟩, 9, [3], true⟩ : BackdoorData ℕ)).count 9 = 1
    ∧ (reloadBD (⟨⟨[1, 2], true, false, 10⟩, 9, [3], true⟩ : BackdoorData ℕ)).transforms = [3]
    ∧ (get_transforms (reloadBD (⟨⟨[1, 2], true, false, 10⟩, 9, [3], true⟩ : BackdoorData ℕ))).count 9
        = 1 :=
  backdoor_applied_once _ (by decide) (by decide)

end BackdoorCfg

namespace TrainAbstraction

/-- C7: `update_model` does not mutate its input: it returns a new
`TrainState` whose step counter is the old one plus one, with the same
`apply_fn` and optimizer transform (the parameters and optimizer state
are replaced by the optax update); `apply_model` itself returns only
gradients and metrics, so it cannot alter a `TrainState` at all. -/
theorem update_model_new_state {P G O : Type} (s : TrainState P G O) (g : G) :
    (update_model s g).step = s.step + 1
    ∧ (update_model s g).apply_fn = s.apply_fn
    ∧ (update_model s g).txUpdate = s.txUpdate
    ∧ (update_model s g).applyUpdates = s.applyUpdates
    ∧ (update_model s g).params = s.applyUpdates s.params (s.txUpdate g s.optState s.params).1 :=
  ⟨rfl, rfl, rfl, rfl, rfl⟩

/-- Folding addition from `0` is summation. -/
theorem foldl_add_eq_sum_from (l : List ℝ) (a : ℝ) :
    l.foldl (fun acc t => acc + t) a = a + l.sum := by
  induction l generalizing a with
  | nil => simp
  | cons x l ih => simp [ih, add_assoc]

/-- The consistency accumulator of `loss_fn` is the sum of the per-pair
mean squared errors over `zip(abstractions[1:], predicted_abstractions)`. -/
theorem consistency_loss_def_eq_sum (abstractions predicted_abstractions : List Mat) :
    consistency_loss_def abstractions predicted_abstractions
      = (List.zipWith sqErrMean (abstractions.drop 1) predicted_abstractions).sum
        / ((predicted_abstractions.length : ℝ)) := by
  unfold consistency_loss_def
  rw [foldl_add_eq_sum_from, zero_add]

/-- Inversion of the checked loss computation: a successful result is
the loss triple of the model output at the given parameters, and every
assertion held. -/
theorem lossFnChecked_ok_inv {P : Type}
    (apply_fn : P → List Mat → List Mat × List Mat × Mat)
    (params : P) (logits : Mat) (activations : List Mat) (t : ℝ × ℝ × ℝ)
    (h : lossFnChecked apply_fn params logits activations = .ok t) :
    t = lossTerms (apply_fn params activations).1 (apply_fn params activations).2.1
          logits (apply_fn params activations).2.2
    ∧ (apply_fn params activations).1.length = (apply_fn params activations).2.1.length
    ∧ (apply_fn params activations).1.length ≠ 0
    ∧ matShape ((apply_fn params activations).2.1.headD [])
        = matShape ((apply_fn params activations).1.headD [])
    ∧ matShape logits = (((apply_fn params activations).1.headD []).length, 10)
    ∧ matShape (apply_fn params activations).2.2
        = (((apply_fn params activations).1.headD []).length, 10) := by
  unfold lossFnChecked at h
  split_ifs at h with h1 h2 h3 h4
  all_goals first
    | exact Except.noConfusion h
    | (injection h with h'; exact ⟨h'.symm, h1, h2, h3, h4.1, h4.2⟩)

/-- Inversion of `apply_model`: on success the metrics triple is the
value of the checked loss computation and the gradients are the
autodiff of the total loss at the state's parameters. -/
theorem apply_model_ok_inv {P G O I : Type} (ad : (P → ℝ) → P → G)
    (s : TrainState P G O) (b : Batch I) (f : I → Mat × List Mat)
    (g : G) (m : Metrics)
    (h : apply_model ad s b f = .ok (g, m)) :
    lossFnChecked s.apply_fn s.params (f b.images).1 (f b.images).2
        = .ok (m.loss, m.output_loss, m.consistency_loss)
    ∧ g = ad (totalLossAt s.apply_fn (f b.images).1 (f b.images).2) s.params := by
  unfold apply_model at h
  cases heq : lossFnChecked s.apply_fn s.params (f b.images).1 (f b.images).2 with
  | error e => rw [heq] at h; exact Except.noConfusion h
  | ok t =>
    rw [heq] at h
    injection h with h'
    injection h' with hg hm
    subst hg
    subst hm
    exact ⟨rfl, rfl⟩

/-- Fusing the elementwise operations of one row of the output loss. -/
theorem zipWith_exp_sub_fuse (l p : List ℝ) :
    List.zipWith (fun a b => a * b) (l.map Real.exp)
        (List.zipWith (fun a b => a - b) l p)
      = List.zipWith (fun a b => Real.exp a * (a - b)) l p := by
  induction l generalizing p with
  | nil => simp
  | cons a l ih =>
    cases p with
    | nil => simp
    | cons c p => simp [ih]

/-- Fusing the elementwise operations of the output loss. -/
theorem matHad_exp_sub (L P : Mat) :
    matHad (matExp L) (matSub L P)
      = List.zipWith (fun l p => List.zipWith (fun a b => Real.exp a * (a - b)) l p) L P := by
  induction L generalizing P with
  | nil => simp [matHad, matExp, matSub]
  | cons r L ih =>
    cases P with
    | nil => simp [matHad, matExp, matSub]
    | cons q P =>
      have htail := ih P
      simp only [matHad, matExp, matSub, List.map_cons, List.zipWith_cons_cons] at htail ⊢
      rw [zipWith_exp_sub_fuse, htail]

/-- When the two logits arrays have the same number of rows, the output
loss of the source equals the formula as the spec words it. -/
theorem output_loss_def_eq_spec (L P : Mat) (h : L.length = P.length) :
    output_loss_def L P = outputLossSpecFormula L P := by
  unfold output_loss_def outputLossSpecFormula vecMean sumLastAxis
  rw [matHad_exp_sub, List.map_zipWith, List.length_zipWith, h, min_self]

/-- Evaluation of `apply_model` on a constant-output state when every
assertion holds. -/
theorem apply_model_mkState_eval (a p : List Mat) (q L : Mat)
    (h1 : a.length = p.length) (h2 : ¬a.length = 0)
    (h3 : matShape (p.headD []) = matShape (a.headD []))
    (h4 : matShape L = ((a.headD []).length, 10))
    (h5 : matShape q = ((a.headD []).length, 10)) :
    apply_model adUnit (mkState a p q) batchU (fwdConst L)
      = .ok ((), { loss := output_loss_def L q + consistency_loss_def a p,
                   output_loss := output_loss_def L q,
                   consistency_loss := consistency_loss_def a p }) := by
  unfold apply_model lossFnChecked
  simp only [mkState, batchU, fwdConst, adUnit]
  rw [if_pos h1, if_neg h2, if_pos h3, if_pos ⟨h4, h5⟩]
  rfl

/-- Output loss of identical all-zero logits is `0`. -/
theorem output_loss_def_zeros : output_loss_def logitsZ logitsZ = 0 := by
  simp [output_loss_def, logitsZ, matHad, matExp, matSub, sumLastAxis, vecMean]

/-- Output loss of all-zero logits against all-one predicted logits is
`-10`: each of the ten class terms is `exp 0 * (0 - 1) = -1`. -/
theorem output_loss_def_zero_one : output_loss_def logitsZ logitsOne = -10 := by
  simp [output_loss_def, logitsZ, logitsOne, matHad, matExp, matSub, sumLastAxis, vecMean,
    Real.exp_zero]
  norm_num

/-- Consistency loss of identical zero layer stacks is `0`. -/
theorem consistency_loss_def_zeros : consistency_loss_def absZ predZ = 0 := by
  simp [consistency_loss_def, absZ, predZ, sqErrMean, matMeanAll, matSquare, matSub,
    sumLastAxis, matSize]

/-- Consistency loss of layers `0, 1, 2` against zero predictions: the
two squared-error terms are `1` and `4`, and the accumulator is divided
by the three predicted layers, giving `5/3`. -/
theorem consistency_loss_def_abs1 : consistency_loss_def abs1 predZ = 5 / 3 := by
  simp [consistency_loss_def, abs1, predZ, sqErrMean, matMeanAll, matSquare, matSub,
    sumLastAxis, matSize]
  norm_num

/-- Evaluation of `apply_model` on the all-zero scenario: zero metrics. -/
theorem apply_model_zero_eval :
    apply_model adUnit (mkState absZ predZ logitsZ) batchU (fwdConst logitsZ)
      = .ok ((), { loss := 0, output_loss := 0, consistency_loss := 0 }) := by
  rw [apply_model_mkState_eval absZ predZ logitsZ logitsZ (by decide) (by decide)
    (by decide) (by decide) (by decide)]
  rw [output_loss_def_zeros, consistency_loss_def_zeros]
  norm_num

/-- Evaluation of `apply_model` on layers `0, 1, 2` against zero predictions. -/
theorem apply_model_abs1_eval :
    apply_model adUnit (mkState abs1 predZ logitsZ) batchU (fwdConst logitsZ)
      = .ok ((), { loss := 5 / 3, output_loss := 0, consistency_loss := 5 / 3 }) := by
  rw [apply_model_mkState_eval abs1 predZ logitsZ logitsZ (by decide) (by decide)
    (by decide) (by decide) (by decide)]
  rw [output_loss_def_zeros, consistency_loss_def_abs1]
  norm_num

/-- C1 (counterexample): for the 3-layer batch with reference layers
`0, 1, 2` and zero predictions, `apply_model` reports a
`consistency_loss` of `5/3` (the two squared-error terms `1` and `4`
divided by the 3 predicted layers), which differs from the claimed
average over the 2 layer pairs, `5/2`. -/
theorem consistency_divisor_cex :
    apply_model adUnit (mkState abs1 predZ logitsZ) batchU (fwdConst logitsZ)
      = .ok ((), { loss := 5 / 3, output_loss := 0, consistency_loss := 5 / 3 })
    ∧ ((5 : ℝ) / 3 ≠ consistencyClaimed abs1 predZ) := by
  refine ⟨apply_model_abs1_eval, ?_⟩
  have hc : consistencyClaimed abs1 predZ = 5 / 2 := by
    simp [consistencyClaimed, abs1, predZ, sqErrMean, matMeanAll, matSquare, matSub,
      sumLastAxis, matSize]
    norm_num
  rw [hc]
  norm_num

/-- C1 (amended): whenever `apply_model` succeeds, the reported
`consistency_loss` is the sum of the per-layer-pair mean squared errors
over `zip(abstractions[1:], predicted_abstractions)` divided by the
total number `n` of predicted layers (not by the `n - 1` pairs), where
the two layer sequences have equal length `n`. -/
theorem consistency_loss_sum_div_n {P G O I : Type} (ad : (P → ℝ) → P → G)
    (s : TrainState P G O) (b : Batch I) (f : I → Mat × List Mat)
    (g : G) (m : Metrics)
    (h : apply_model ad s b f = .ok (g, m)) :
    m.consistency_loss
      = (List.zipWith sqErrMean ((s.apply_fn s.params (f b.images).2).1.drop 1)
            ((s.apply_fn s.params (f b.images).2).2.1)).sum
        / (((s.apply_fn s.params (f b.images).2).2.1.length : ℝ))
    ∧ (s.apply_fn s.params (f b.images).2).1.length
        = (s.apply_fn s.params (f b.images).2).2.1.length := by
  obtain ⟨hchk, -⟩ := apply_model_ok_inv ad s b f g m h
  obtain ⟨ht, hlen, -, -, -, -⟩ := lossFnChecked_ok_inv _ _ _ _ _ hchk
  simp only [lossTerms, Prod.mk.injEq] at ht
  refine ⟨?_, hlen⟩
  rw [ht.2.2, consistency_loss_def_eq_sum]

/-- Witness for `consistency_loss_sum_div_n` at the all-zero scenario. -/
theorem consistency_loss_sum_div_n_witness :
    (({ loss := 0, output_loss := 0, consistency_loss := 0 } : Metrics)).consistency_loss
      = (List.zipWith sqErrMean (absZ.drop 1) predZ).sum / ((predZ.length : ℝ))
    ∧ absZ.length = predZ.length := by
  have h := consistency_loss_sum_div_n adUnit (mkState absZ predZ logitsZ) batchU
    (fwdConst logitsZ) () _ apply_model_zero_eval
  exact h

/-- C2: whenever `apply_model` succeeds, the reported total loss is the
unweighted sum of the output and consistency terms, the output term is
exactly the raw-logits formula
`sum_over_classes(exp(logits) * (logits - predicted_logits))` averaged
over the batch, and the gradients are those of the differentiated total
loss, which at every parameter value is that same unweighted sum. -/
theorem loss_is_unweighted_sum {P G O I : Type} (ad : (P → ℝ) → P → G)
    (s : TrainState P G O) (b : Batch I) (f : I → Mat × List Mat)
    (g : G) (m : Metrics)
    (h : apply_model ad s b f = .ok (g, m)) :
    m.loss = m.output_loss + m.consistency_loss
    ∧ m.output_loss
        = outputLossSpecFormula (f b.images).1 ((s.apply_fn s.params (f b.images).2).2.2)
    ∧ g = ad (totalLossAt s.apply_fn (f b.images).1 (f b.images).2) s.params
    ∧ (∀ p, totalLossAt s.apply_fn (f b.images).1 (f b.images).2 p
          = output_loss_def (f b.images).1 ((s.apply_fn p (f b.images).2).2.2)
            + consistency_loss_def ((s.apply_fn p (f b.images).2).1)
                ((s.apply_fn p (f b.images).2).2.1)) := by
  obtain ⟨hchk, hg⟩ := apply_model_ok_inv ad s b f g m h
  obtain ⟨ht, -, -, -, hlog, hq⟩ := lossFnChecked_ok_inv _ _ _ _ _ hchk
  simp only [lossTerms, Prod.mk.injEq] at ht
  refine ⟨?_, ?_, hg, fun p => rfl⟩
  · rw [ht.1, ht.2.1, ht.2.2]
  · rw [ht.2.1]
    apply output_loss_def_eq_spec
    have hL : (f b.images).1.length = ((s.apply_fn s.params (f b.images).2).1.headD []).length :=
      congrArg Prod.fst hlog
    have hQ : ((s.apply_fn s.params (f b.images).2).2.2).length
        = ((s.apply_fn s.params (f b.images).2).1.headD []).length :=
      congrArg Prod.fst hq
    rw [hL, hQ]

/-- Witness for `loss_is_unweighted_sum` at the all-zero scenario. -/
theorem loss_is_unweighted_sum_witness :
    ((0 : ℝ) = 0 + 0) ∧ ((0 : ℝ) = outputLossSpecFormula logitsZ logitsZ) := by
  have h := loss_is_unweighted_sum adUnit (mkState absZ predZ logitsZ) batchU
    (fwdConst logitsZ) () _ apply_model_zero_eval
  exact ⟨h.1, h.2.1⟩

/-- C8 (counterexample): for all-zero logits and all-one predicted
logits, `apply_model` reports `output_loss = -10 < 0`, so the output
loss is not non-negative for every batch. -/
theorem output_loss_negative_cex :
    apply_model adUnit (mkState absZ predZ logitsOne) batchU (fwdConst logitsZ)
      = .ok ((), { loss := -10, output_loss := -10, consistency_loss := 0 })
    ∧ ((-10 : ℝ) < 0) := by
  constructor
  · rw [apply_model_mkState_eval absZ predZ logitsOne logitsZ (by decide) (by decide)
      (by decide) (by decide) (by decide)]
    rw [output_loss_def_zero_one, consistency_loss_def_zeros]
    norm_num
  · norm_num

/-- Pointwise bound behind the divergence inequality:
`exp a - exp c ≤ exp a * (a - c)`. -/
theorem exp_sub_le_exp_mul (a c : ℝ) :
    Real.exp a - Real.exp c ≤ Real.exp a * (a - c) := by
  have h1 : c - a + 1 ≤ Real.exp (c - a) := by
    have := Real.add_one_le_exp (c - a)
    linarith
  have h2 : Real.exp a * (c - a + 1) ≤ Real.exp a * Real.exp (c - a) :=
    mul_le_mul_of_nonneg_left h1 (le_of_lt (Real.exp_pos a))
  have h3 : Real.exp a * Real.exp (c - a) = Real.exp c := by
    rw [← Real.exp_add]
    ring_nf
  have h4 : Real.exp a * (c - a + 1) = Real.exp a * (c - a) + Real.exp a := by ring
  have h5 : Real.exp a * (a - c) = -(Real.exp a * (c - a)) := by ring
  linarith

/-- Row bound: one row of the output loss dominates the difference of
the row sums of the exponentials. -/
theorem row_term_sum_ge (l p : List ℝ) (h : l.length = p.length) :
    (l.map Real.exp).sum - (p.map Real.exp).sum
      ≤ (List.zipWith (fun a b => Real.exp a * (a - b)) l p).sum := by
  induction l generalizing p with
  | nil =>
    cases p with
    | nil => simp
    | cons c p => simp at h
  | cons a l ih =>
    cases p with
    | nil => simp at h
    | cons c p =>
      simp only [List.map_cons, List.sum_cons, List.zipWith_cons_cons]
      have hlen : l.length = p.length := by simpa using h
      have := ih p hlen
      have := exp_sub_le_exp_mul a c
      linarith

/-- The summed row terms are non-negative when every row pair has equal
length and a dominated exponential sum. -/
theorem zip_rows_sum_nonneg (L P : Mat)
    (hr : List.Forall₂ (fun l p => l.length = p.length
            ∧ (p.map Real.exp).sum ≤ (l.map Real.exp).sum) L P) :
    0 ≤ (List.zipWith
          (fun l p => (List.zipWith (fun a b => Real.exp a * (a - b)) l p).sum) L P).sum := by
  induction hr with
  | nil => simp
  | cons hpair hrest ih =>
    rename_i x y xs ys
    rw [List.zipWith_cons_cons, List.sum_cons]
    have hrow := row_term_sum_ge x y hpair.1
    have hhead : (0 : ℝ) ≤ (List.zipWith (fun a b => Real.exp a * (a - b)) x y).sum := by
      linarith [hpair.2]
    exact add_nonneg hhead ih

/-- C8 (amended): `output_loss` is not non-negative for every batch (see
`output_loss_negative_cex`); it is non-negative whenever, for each
example of the batch, the class sum of `exp(predicted_logits)` does not
exceed the class sum of `exp(logits)` — in particular whenever both rows
are normalized log-probabilities, the KL case the formula resembles. -/
theorem output_loss_nonneg_of_rowsum_dominated {P G O I : Type} (ad : (P → ℝ) → P → G)
    (s : TrainState P G O) (b : Batch I) (f : I → Mat × List Mat)
    (g : G) (m : Metrics)
    (h : apply_model ad s b f = .ok (g, m))
    (hr : List.Forall₂ (fun l p => l.length = p.length
            ∧ (p.map Real.exp).sum ≤ (l.map Real.exp).sum)
          (f b.images).1 ((s.apply_fn s.params (f b.images).2).2.2)) :
    0 ≤ m.output_loss := by
  obtain ⟨hchk, -⟩ := apply_model_ok_inv ad s b f g m h
  obtain ⟨ht, -, -, -, -, -⟩ := lossFnChecked_ok_inv _ _ _ _ _ hchk
  simp only [lossTerms, Prod.mk.injEq] at ht
  rw [ht.2.1]
  unfold output_loss_def vecMean sumLastAxis
  rw [matHad_exp_sub, List.map_zipWith]
  exact div_nonneg (zip_rows_sum_nonneg _ _ hr) (Nat.cast_nonneg _)

/-- Witness for `output_loss_nonneg_of_rowsum_dominated` at the
all-zero scenario. -/
theorem output_loss_nonneg_witness :
    0 ≤ (({ loss := 0, output_loss := 0, consistency_loss := 0 } : Metrics)).output_loss := by
  refine output_loss_nonneg_of_rowsum_dominated adUnit (mkState absZ predZ logitsZ) batchU
    (fwdConst logitsZ) () _ apply_model_zero_eval ?_
  simp [mkState, batchU, fwdConst, logitsZ]

/-- The checked loss computation fails (with some assertion error)
whenever the length precondition or the logits-shape precondition is
violated. -/
theorem lossFnChecked_error_cases {P : Type}
    (apply_fn : P → List Mat → List Mat × List Mat × Mat)
    (params : P) (logits : Mat) (activations : List Mat)
    (h : (apply_fn params activations).1.length ≠ (apply_fn params activations).2.1.length
       ∨ ¬(matShape logits = (((apply_fn params activations).1.headD []).length, 10)
           ∧ matShape (apply_fn params activations).2.2
               = (((apply_fn params activations).1.headD []).length, 10))) :
    ∃ e, lossFnChecked apply_fn params logits activations = .error e := by
  unfold lossFnChecked
  split_ifs with h1 h2 h3 h4
  · exact ⟨.indexOutOfRange, rfl⟩
  · rcases h with hA | hB
    · exact absurd h1 hA
    · exact absurd h4 hB
  · exact ⟨.logitsShape, rfl⟩
  · exact ⟨.abstractionShape, rfl⟩
  · exact ⟨.lenMismatch, rfl⟩

/-- C6: violating the `len(abstractions) == len(predicted_abstractions)`
precondition or the
`predicted_logits.shape == logits.shape == (batch_size, 10)`
precondition makes `apply_model` abort with an assertion error that is
the same for every autodiff — i.e. before any gradient is computed. -/
theorem shape_asserts_abort {P G O I : Type} (s : TrainState P G O) (b : Batch I)
    (f : I → Mat × List Mat)
    (h : (s.apply_fn s.params (f b.images).2).1.length
          ≠ (s.apply_fn s.params (f b.images).2).2.1.length
       ∨ ¬(matShape (f b.images).1
              = (((s.apply_fn s.params (f b.images).2).1.headD []).length, 10)
            ∧ matShape (s.apply_fn s.params (f b.images).2).2.2
              = (((s.apply_fn s.params (f b.images).2).1.headD []).length, 10))) :
    ∃ e, ∀ (ad : (P → ℝ) → P → G), apply_model ad s b f = .error e := by
  obtain ⟨e, he⟩ := lossFnChecked_error_cases s.apply_fn s.params (f b.images).1
    (f b.images).2 h
  refine ⟨e, fun ad => ?_⟩
  unfold apply_model
  rw [he]

/-- Witness for `shape_asserts_abort`: one reference layer but zero
predicted layers violates the length precondition, and `apply_model`
errors for every autodiff. -/
theorem shape_asserts_abort_witness :
    ∃ e, ∀ (ad : (Unit → ℝ) → Unit → Unit),
      apply_model ad (mkState [[[0]]] [] logitsZ) batchU (fwdConst logitsZ) = .error e :=
  shape_asserts_abort (mkState [[[0]]] [] logitsZ) batchU (fwdConst logitsZ)
    (Or.inl (by decide))

/-- A successful `train_epoch` returns per-key means built by
`epochMeans`. -/
theorem train_epoch_ok_shape {P G O I : Type} (ad : (P → ℝ) → P → G)
    (f : I → Mat × List Mat) (s : TrainState P G O) (batches : List (Batch I))
    (r : TrainState P G O × List (String × ℝ))
    (h : train_epoch ad f s batches = .ok r) :
    ∃ t, r.2 = epochMeans t := by
  unfold train_epoch at h
  cases heq : trainEpochLoop ad f s batches with
  | error e => rw [heq] at h; exact Except.noConfusion h
  | ok t =>
    rw [heq] at h
    injection h with h'
    exact ⟨t.2, (congrArg Prod.snd h').symm⟩

/-- The per-epoch train metrics never contain an `"accuracy"` key, so
building the log-line tuple always raises a `KeyError`. -/
theorem logLineTuple_error (ep : ℕ) (t : List ℝ × List ℝ × List ℝ)
    (d : List (String × ℝ)) :
    ∃ e, logLineTuple ep (epochMeans t) d = .error e := by
  by_cases hnil : t.1 = []
  · refine ⟨.keyError "loss", ?_⟩
    unfold logLineTuple lookupKey epochMeans
    rw [if_pos hnil]
    rfl
  · refine ⟨.keyError "accuracy", ?_⟩
    unfold logLineTuple lookupKey epochMeans
    rw [if_neg hnil]
    rfl

/-- C5 (code bug): with at least one configured epoch,
`train_and_evaluate` always aborts with an error before completing its
first epoch's logging: either an assertion failure from the loss
computation, or the `KeyError` from reading the `"accuracy"` key, which
the metrics of `apply_model` never contain.  (In the source the held-out
evaluation call `apply_model(state, test_batch)` additionally omits the
mandatory `forward_fn` argument; the embedding supplies it, which only
makes the modelled code more permissive.) -/
theorem train_and_evaluate_never_logs {P G O I : Type} (ad : (P → ℝ) → P → G)
    (f : I → Mat × List Mat) (trainBatches : List (Batch I)) (testBatch : Batch I)
    (n : ℕ) (s : TrainState P G O) (h : 1 ≤ n) :
    ∃ e, train_and_evaluate ad f trainBatches testBatch n s = .error e := by
  obtain ⟨k, rfl⟩ : ∃ k, n = k + 1 := ⟨n - 1, by omega⟩
  cases heq : train_epoch ad f s trainBatches with
  | error e =>
    exact ⟨.assertion e, by unfold train_and_evaluate trainAndEvaluateLoop; simp only [heq]⟩
  | ok r =>
    obtain ⟨t, ht⟩ := train_epoch_ok_shape ad f s trainBatches r heq
    cases heq2 : apply_model ad r.1 testBatch f with
    | error e =>
      exact ⟨.assertion e,
        by unfold train_and_evaluate trainAndEvaluateLoop; simp only [heq, heq2]⟩
    | ok tm =>
      obtain ⟨e, he⟩ := logLineTuple_error (k + 1) t (metricsDict tm.2)
      refine ⟨e, ?_⟩
      unfold train_and_evaluate trainAndEvaluateLoop
      simp only [heq, heq2, ht, he]

/-- Witness for `train_and_evaluate_never_logs`: one epoch over an
empty loader at the all-zero scenario. -/
theorem train_and_evaluate_never_logs_witness :
    ∃ e, train_and_evaluate adUnit (fwdConst logitsZ) [] batchU 1
      (mkState absZ predZ logitsZ) = .error e :=
  train_and_evaluate_never_logs adUnit (fwdConst logitsZ) [] batchU 1
    (mkState absZ predZ logitsZ) (by norm_num)

end TrainAbstraction

end Cupbearer
